import Mathlib

/-!
Shallow embedding of `PayPalCommerceAlternativeMethodsPaymentStrategy`
(src/unnamed/part_000) from the checkout-sdk-js fragment, plus a
spec-modelled `AdyenV2ScriptLoader#load`.

External collaborators (the payment integration service, the PayPal commerce
integration service, the PayPal SDK loader, the DOM, the loading indicator
and the merchant callbacks) are modelled by an `Env` record holding their
responses, and every outbound call is recorded, in order, in a trace of
`Effect`s.  JavaScript truthiness of optional strings (undefined, null and
the empty string are falsy) is modelled by `strFalsy`.  The source's
`initialize` and `deinitialize` methods are embedded as `initializeStrategy`
and `deinitializeStrategy`.
-/

/-- Errors from `@bigcommerce/checkout-sdk/payment-integration-api` that the
embedded code raises. -/
inductive CheckoutError where
  | invalidArgumentError (message : String)
  | orderFinalizationNotRequiredError
  | paymentArgumentInvalidError (invalidFields : List String)
  | paymentMethodClientUnavailableError
  | paymentMethodInvalidError
  deriving DecidableEq, Repr

/-- One outbound call to a collaborator (service call, vendor SDK call, DOM
write, loading-indicator toggle or merchant callback), as the strategy
performs it. -/
inductive Effect where
  | getState
  | getPayPalApmsSdk (currencyCode : String)
  | getValidButtonStyle
  | submitOrder
  | submitPayment (methodId : String) (orderId : String) (gatewayId : Option String)
  | createOrder (cartSource : String)
  | buttonRender (container : String)
  | buttonClose
  | clearFieldContainer (selector : String)
  | paymentFieldsRender (fundingSource : String) (container : String)
      (nameValue : String) (emailValue : String)
  | showLoadingIndicator (container : String)
  | hideLoadingIndicator
  | callOnInitButton
  | callOnValidate
  | callOnRenderButton
  | callSubmitForm
  | callOnError
  deriving DecidableEq, Repr

/-- JavaScript falsiness of an optional string: undefined, null and `""` are
falsy. -/
def strFalsy : Option String → Bool
  | none => true
  | some s => s == ""

/-- `PayPalCommerceAlternativeMethodsPaymentOptions`: the merchant-supplied
option structure.  The required callbacks (`onInitButton`, `onValidate`,
`submitForm`) are external functions whose invocation is traced; the optional
`onRenderButton` and `onError` callbacks are modelled by presence flags, which
is all the source inspects (`typeof f === 'function'`). -/
structure PayPalCommerceAlternativeMethodsPaymentOptions where
  container : String
  apmFieldsContainer : Option String
  apmFieldsStyles : Option (List (String × String))
  hasOnRenderButton : Bool
  hasOnError : Bool
  deriving DecidableEq, Repr

/-- The slice of `PaymentInitializeOptions &
WithPayPalCommerceAlternativeMethodsPaymentInitializeOptions` that
`initialize` destructures. -/
structure PaymentInitializeOptions where
  methodId : Option String
  gatewayId : Option String
  paypalcommerce : Option PayPalCommerceAlternativeMethodsPaymentOptions
  paypalcommercealternativemethods : Option PayPalCommerceAlternativeMethodsPaymentOptions
  deriving DecidableEq, Repr

/-- The fields of `PayPalCommerceInitializationData` that the strategy
reads. -/
structure PayPalCommerceInitializationData where
  orderId : Option String
  shouldRenderFields : Bool
  deriving DecidableEq, Repr

/-- The slice of a payment entry in an `OrderRequestBody` that `execute`
destructures. -/
structure Payment where
  methodId : String
  gatewayId : Option String
  deriving DecidableEq, Repr

/-- `OrderRequestBody`: `execute` only inspects whether `payment` is
present and, when it is, its `methodId` and `gatewayId`. -/
structure OrderRequestBody where
  payment : Option Payment
  deriving DecidableEq, Repr

/-- Responses of the external collaborators: the payment method state returned
by `getState().getPaymentMethodOrThrow`, the cart currency, the billing
address, the vendor SDK answers (`isEligible`, created order id, DOM query
result), whether the merchant validator resolves, and the key set of the
`NonInstantAlternativePaymentMethods` enum (defined outside this fragment). -/
structure Env where
  initializationData : Option PayPalCommerceInitializationData
  currencyCode : String
  billingFirstName : String
  billingLastName : String
  billingEmail : String
  buttonIsEligible : Bool
  createOrderId : String
  fieldContainerExists : Bool
  validationResolves : Bool
  nonInstantMethods : List String
  deriving DecidableEq, Repr

/-- The private instance fields of the strategy.  The `paypalButton` and
`paypalApms` handles are vendor objects; the strategy only tests their
presence, so they are modelled by presence flags. -/
structure StrategyState where
  loadingIndicatorContainer : Option String
  orderId : Option String
  paypalButton : Bool
  paypalApms : Bool
  deriving DecidableEq, Repr

/-- A freshly constructed strategy: every private field undefined. -/
def StrategyState.initial : StrategyState :=
  { loadingIndicatorContainer := none, orderId := none,
    paypalButton := false, paypalApms := false }

/-- Error message of the `methodId` guard in `initialize` (src lines 56-60). -/
def methodIdMessage : String :=
  "Unable to initialize payment because \"options.methodId\" argument is not provided."

/-- Error message of the `gatewayId` guard in `initialize` (src lines 62-66). -/
def gatewayIdMessage : String :=
  "Unable to initialize payment because \"options.gatewayId\" argument is not provided."

/-- Error message of the `paypalOptions` guard in `initialize` (src lines 68-72). -/
def paypalOptionsMessage : String :=
  "Unable to initialize payment because \"options.paypalcommercealternativemethods\" argument is not provided."

/-- Error message of the `apmFieldsContainer` guard in `renderFields`
(src lines 257-261). -/
def apmFieldsContainerMessage : String :=
  "Unable to initialize payment because \"options.paypalcommercealternativemethods\" argument should contain \"apmFieldsContainer\"."

/-- `isNonInstantPaymentMethod` (src lines 305-307): key membership of the
upper-cased method id in the `NonInstantAlternativePaymentMethods` enum,
whose key list is carried in the environment. -/
def isNonInstantPaymentMethod (env : Env) (methodId : String) : Bool :=
  env.nonInstantMethods.contains methodId.toUpper

/-- `getPaypalAmpsSdkOrThrow` (src lines 309-315): throws
`PaymentMethodClientUnavailableError` when the PayPal APM SDK was never
loaded onto the instance, otherwise returns it. -/
def getPaypalAmpsSdkOrThrow (s : StrategyState) : Except CheckoutError Unit :=
  if s.paypalApms then Except.ok ()
  else Except.error CheckoutError.paymentMethodClientUnavailableError

/-- `toggleLoadingIndicator` (src lines 292-298): shows the indicator in the
stored container when loading and a container is set (truthy), otherwise
hides it. -/
def toggleLoadingIndicator (s : StrategyState) (isLoading : Bool) : List Effect :=
  if isLoading && !(strFalsy s.loadingIndicatorContainer) then
    [Effect.showLoadingIndicator (s.loadingIndicatorContainer.getD "")]
  else
    [Effect.hideLoadingIndicator]

/-- `handleApprove` (src lines 222-229): stores the approval payload's
`orderID` on the instance and calls the merchant's `submitForm`. -/
def handleApprove (s : StrategyState) (orderID : Option String) :
    StrategyState × List Effect :=
  ({ s with orderId := orderID }, [Effect.callSubmitForm])

/-- `handleFailure` (src lines 231-240): hides the loading indicator and, when
an `onError` callback was supplied, invokes it. -/
def handleFailure (s : StrategyState)
    (popts : PayPalCommerceAlternativeMethodsPaymentOptions) : List Effect :=
  toggleLoadingIndicator s false ++
    (if popts.hasOnError then [Effect.callOnError] else [])

/-- `onCreateOrder` (src lines 187-220): awaits the merchant validator
(showing the loading indicator when the validator resolves), creates a PayPal
order, and for a non-instant method also submits the order and the payment
before returning the created order id.  It writes no instance field. -/
def onCreateOrder (env : Env) (s : StrategyState) (methodId gatewayId : String)
    (popts : PayPalCommerceAlternativeMethodsPaymentOptions) :
    String × List Effect × PayPalCommerceAlternativeMethodsPaymentOptions :=
  let validateTrace :=
    Effect.callOnValidate ::
      (if env.validationResolves then toggleLoadingIndicator s true else [])
  let orderId := env.createOrderId
  let nonInstantTrace :=
    if isNonInstantPaymentMethod env methodId then
      [Effect.submitOrder, Effect.submitPayment methodId orderId (some gatewayId)]
    else []
  (orderId,
   validateTrace ++
     Effect.createOrder "paypalcommercealternativemethodscheckout" :: nonInstantTrace,
   popts)

/-- Output of `renderButton`: outcome, updated instance fields, trace, and the
(threaded, never written) option structure. -/
structure RenderOut where
  res : Except CheckoutError Unit
  state : StrategyState
  trace : List Effect
  popts : PayPalCommerceAlternativeMethodsPaymentOptions
  deriving Repr

/-- `renderButton` (src lines 146-185): requires the APM SDK, reads the
payment method's button style, creates the button handle, and when the button
is eligible invokes `onRenderButton` (when supplied) and renders into the
configured container. -/
def renderButton (env : Env) (s : StrategyState) (methodId gatewayId : String)
    (popts : PayPalCommerceAlternativeMethodsPaymentOptions) : RenderOut :=
  match getPaypalAmpsSdkOrThrow s with
  | Except.error e => { res := Except.error e, state := s, trace := [], popts := popts }
  | Except.ok _ =>
    let preTrace := [Effect.getState, Effect.getValidButtonStyle]
    let s1 := { s with paypalButton := true }
    if !env.buttonIsEligible then
      { res := Except.ok (), state := s1, trace := preTrace, popts := popts }
    else
      { res := Except.ok (), state := s1,
        trace := preTrace ++
          ((if popts.hasOnRenderButton then [Effect.callOnRenderButton] else []) ++
            [Effect.buttonRender popts.container]),
        popts := popts }

/-- Output of `renderFields`: outcome, trace, and the threaded option
structure.  `renderFields` writes no instance field and keeps no handle to the
payment fields it renders. -/
structure FieldsOut where
  res : Except CheckoutError Unit
  trace : List Effect
  popts : PayPalCommerceAlternativeMethodsPaymentOptions
  deriving Repr

/-- `renderFields` (src lines 247-285): requires the APM SDK, reads the
billing address, throws when `apmFieldsContainer` is falsy, clears the
container element when the DOM query finds it, and renders the payment fields
prefilled with the billing name and email. -/
def renderFields (env : Env) (s : StrategyState) (methodId : String)
    (popts : PayPalCommerceAlternativeMethodsPaymentOptions) : FieldsOut :=
  match getPaypalAmpsSdkOrThrow s with
  | Except.error e => { res := Except.error e, trace := [], popts := popts }
  | Except.ok _ =>
    if strFalsy popts.apmFieldsContainer then
      { res := Except.error (CheckoutError.invalidArgumentError apmFieldsContainerMessage),
        trace := [Effect.getState], popts := popts }
    else
      let container := popts.apmFieldsContainer.getD ""
      { res := Except.ok (),
        trace := Effect.getState ::
          ((if env.fieldContainerExists then [Effect.clearFieldContainer container] else []) ++
            [Effect.paymentFieldsRender methodId container
              (env.billingFirstName ++ " " ++ env.billingLastName) env.billingEmail]),
        popts := popts }

/-- Output of `initialize`: outcome, updated instance fields, trace, and the
(threaded, never written) top-level options object. -/
structure InitOut where
  res : Except CheckoutError Unit
  state : StrategyState
  trace : List Effect
  options : PaymentInitializeOptions
  deriving Repr

/-- Writes the (possibly updated) paypal option structure back into the field
of the options object that `paypalcommercealternativemethods || paypalcommerce`
aliased. -/
def writeBackPaypalOptions (options : PaymentInitializeOptions)
    (popts : PayPalCommerceAlternativeMethodsPaymentOptions) :
    PaymentInitializeOptions :=
  match options.paypalcommercealternativemethods with
  | some _ => { options with paypalcommercealternativemethods := some popts }
  | none =>
    match options.paypalcommerce with
    | some _ => { options with paypalcommerce := some popts }
    | none => options

/-- `initialize` (src lines 44-103), embedded under the name
`initializeStrategy`: three missing-argument guards, then the payment method
is read; when its `initializationData` carries a truthy order id the id is
stored and the method returns at once; otherwise the APM SDK is loaded, the
loading-indicator container is derived from the configured container selector
(`split('#')[1]`), the button is rendered, and the fields are rendered when
`shouldRenderFields` is set. -/
def initializeStrategy (env : Env) (s : StrategyState)
    (options : PaymentInitializeOptions) : InitOut :=
  let paypalOptions :=
    options.paypalcommercealternativemethods.orElse fun _ => options.paypalcommerce
  if strFalsy options.methodId then
    { res := Except.error (CheckoutError.invalidArgumentError methodIdMessage),
      state := s, trace := [], options := options }
  else if strFalsy options.gatewayId then
    { res := Except.error (CheckoutError.invalidArgumentError gatewayIdMessage),
      state := s, trace := [], options := options }
  else
    match paypalOptions with
    | none =>
      { res := Except.error (CheckoutError.invalidArgumentError paypalOptionsMessage),
        state := s, trace := [], options := options }
    | some popts =>
      let methodId := options.methodId.getD ""
      let gatewayId := options.gatewayId.getD ""
      let d := env.initializationData.getD
        { orderId := none, shouldRenderFields := false }
      if !strFalsy d.orderId then
        { res := Except.ok (), state := { s with orderId := d.orderId },
          trace := [Effect.getState], options := options }
      else
        let s1 := { s with paypalApms := true }
        let s2 := { s1 with
          loadingIndicatorContainer := (popts.container.splitOn "#").get? 1 }
        let headTrace := [Effect.getState, Effect.getPayPalApmsSdk env.currencyCode]
        let rb := renderButton env s2 methodId gatewayId popts
        match rb.res with
        | Except.error e =>
          { res := Except.error e, state := rb.state, trace := headTrace ++ rb.trace,
            options := writeBackPaypalOptions options rb.popts }
        | Except.ok _ =>
          if d.shouldRenderFields then
            let rf := renderFields env rb.state methodId rb.popts
            { res := rf.res, state := rb.state,
              trace := headTrace ++ rb.trace ++ rf.trace,
              options := writeBackPaypalOptions options rf.popts }
          else
            { res := Except.ok (), state := rb.state, trace := headTrace ++ rb.trace,
              options := writeBackPaypalOptions options rb.popts }

/-- `execute` (src lines 105-127): requires a payment entry and a truthy
stored order id; submits the order unless the method is non-instant, then
submits the payment with the stored order id. -/
def execute (env : Env) (s : StrategyState) (payload : OrderRequestBody) :
    Except CheckoutError Unit × StrategyState × List Effect :=
  match payload.payment with
  | none => (Except.error (CheckoutError.paymentArgumentInvalidError ["payment"]), s, [])
  | some payment =>
    if strFalsy s.orderId then
      (Except.error CheckoutError.paymentMethodInvalidError, s, [])
    else
      (Except.ok (), s,
       (if isNonInstantPaymentMethod env payment.methodId then []
        else [Effect.submitOrder]) ++
         [Effect.submitPayment payment.methodId (s.orderId.getD "") payment.gatewayId])

/-- `finalize` (src lines 129-131): always rejects with
`OrderFinalizationNotRequiredError`. -/
def finalize (s : StrategyState) :
    Except CheckoutError Unit × StrategyState × List Effect :=
  (Except.error CheckoutError.orderFinalizationNotRequiredError, s, [])

/-- `deinitialize` (src lines 133-139), embedded under the name
`deinitializeStrategy`: clears the stored order id and closes the button
handle when one was created (the handle field itself is kept). -/
def deinitializeStrategy (s : StrategyState) :
    Except CheckoutError Unit × StrategyState × List Effect :=
  (Except.ok (), { s with orderId := none },
   if s.paypalButton then [Effect.buttonClose] else [])

/-- The six vendor callbacks wired into the PayPal button options by
`renderButton` (src lines 162-172); the approval callback carries the
vendor-supplied `orderID`. -/
inductive ButtonCallback where
  | onInit
  | createOrder
  | onApprove (orderID : Option String)
  | onCancel
  | onError
  | onClick
  deriving DecidableEq, Repr

/-- Runs one vendor callback of the button options against the current
instance state, with the `methodId`, `gatewayId` and `paypalOptions` the
callbacks close over. -/
def runButtonCallback (env : Env) (s : StrategyState) (methodId gatewayId : String)
    (popts : PayPalCommerceAlternativeMethodsPaymentOptions) :
    ButtonCallback →
      StrategyState × List Effect × PayPalCommerceAlternativeMethodsPaymentOptions
  | ButtonCallback.onInit => (s, [Effect.callOnInitButton], popts)
  | ButtonCallback.createOrder =>
    (s, (onCreateOrder env s methodId gatewayId popts).2.1,
     (onCreateOrder env s methodId gatewayId popts).2.2)
  | ButtonCallback.onApprove orderID =>
    ((handleApprove s orderID).1, (handleApprove s orderID).2, popts)
  | ButtonCallback.onCancel => (s, toggleLoadingIndicator s false, popts)
  | ButtonCallback.onError => (s, handleFailure s popts, popts)
  | ButtonCallback.onClick => (s, [Effect.callOnValidate], popts)

/-- A vendor client object exposed on the browser global scope. -/
structure AdyenClient where
  clientId : Nat
  deriving DecidableEq, Repr

/-- The browser window as the Adyen loader sees it after the script load
resolved. -/
structure AdyenHostWindow where
  AdyenCheckout : Option AdyenClient
  deriving DecidableEq, Repr

/-- Modelled from the spec: the implementation of `AdyenV2ScriptLoader#load`
is not part of this fragment (only its test file is present).  Per the spec
sentence on the client-unavailable condition and the test's assertions, after
the script and stylesheet loads resolve, `load` reads `window.AdyenCheckout`:
it rejects with `PaymentMethodClientUnavailableError` when the vendor SDK
failed to attach itself to the global scope, and otherwise returns the client
taken from the window. -/
def adyenV2ScriptLoaderLoad (w : AdyenHostWindow) : Except CheckoutError AdyenClient :=
  match w.AdyenCheckout with
  | none => Except.error CheckoutError.paymentMethodClientUnavailableError
  | some client => Except.ok client

/-! ### Concrete inputs used by witnesses and counterexamples -/

/-- A fully populated merchant option structure with a fields container. -/
def poptsFull : PayPalCommerceAlternativeMethodsPaymentOptions :=
  { container := "#checkout-container", apmFieldsContainer := some "#fields-container",
    apmFieldsStyles := none, hasOnRenderButton := true, hasOnError := true }

/-- A merchant option structure without an `apmFieldsContainer`. -/
def poptsNoFields : PayPalCommerceAlternativeMethodsPaymentOptions :=
  { container := "#checkout-container", apmFieldsContainer := none,
    apmFieldsStyles := none, hasOnRenderButton := false, hasOnError := false }

/-- Initialize options carrying `poptsFull`. -/
def optionsFull : PaymentInitializeOptions :=
  { methodId := some "oxxo", gatewayId := some "paypalcommercealternativemethods",
    paypalcommerce := none, paypalcommercealternativemethods := some poptsFull }

/-- Initialize options carrying `poptsNoFields`. -/
def optionsNoFields : PaymentInitializeOptions :=
  { methodId := some "oxxo", gatewayId := some "paypalcommercealternativemethods",
    paypalcommerce := none, paypalcommercealternativemethods := some poptsNoFields }

/-- An environment in which the backend returned no order id and requested
field rendering. -/
def envFields : Env :=
  { initializationData := some { orderId := none, shouldRenderFields := true },
    currencyCode := "USD", billingFirstName := "Ann", billingLastName := "Smith",
    billingEmail := "ann@example.com", buttonIsEligible := true,
    createOrderId := "created-1", fieldContainerExists := true,
    validationResolves := true, nonInstantMethods := ["OXXO"] }

/-- An environment in which the backend returned an order id held in the
checkout session. -/
def envBackendOrder : Env :=
  { envFields with
    initializationData := some { orderId := some "backend-1", shouldRenderFields := false } }

/-- A payload whose payment entry names an instant method. -/
def payloadInstant : OrderRequestBody :=
  { payment := some { methodId := "przelewy24",
                      gatewayId := some "paypalcommercealternativemethods" } }

/-- A payload with no payment entry. -/
def payloadNoPayment : OrderRequestBody := { payment := none }

/-- A strategy state with an active order id. -/
def stateActiveOrder : StrategyState :=
  { StrategyState.initial with orderId := some "ord-1" }

/-! ### Helper lemmas -/

theorem renderButton_popts (env : Env) (s : StrategyState) (m g : String)
    (popts : PayPalCommerceAlternativeMethodsPaymentOptions) :
    (renderButton env s m g popts).popts = popts := by
  unfold renderButton
  split
  · rfl
  · split <;> rfl

theorem renderFields_popts (env : Env) (s : StrategyState) (m : String)
    (popts : PayPalCommerceAlternativeMethodsPaymentOptions) :
    (renderFields env s m popts).popts = popts := by
  unfold renderFields
  split
  · rfl
  · split <;> rfl

theorem renderButton_orderId (env : Env) (s : StrategyState) (m g : String)
    (popts : PayPalCommerceAlternativeMethodsPaymentOptions) :
    (renderButton env s m g popts).state.orderId = s.orderId := by
  unfold renderButton
  split
  · rfl
  · split <;> rfl

theorem renderButton_res_ok (env : Env) (s : StrategyState) (m g : String)
    (popts : PayPalCommerceAlternativeMethodsPaymentOptions)
    (h : s.paypalApms = true) :
    (renderButton env s m g popts).res = Except.ok () := by
  unfold renderButton getPaypalAmpsSdkOrThrow
  rw [h]
  simp only [if_true]
  split <;> rfl

theorem renderButton_paypalApms (env : Env) (s : StrategyState) (m g : String)
    (popts : PayPalCommerceAlternativeMethodsPaymentOptions) :
    (renderButton env s m g popts).state.paypalApms = s.paypalApms := by
  unfold renderButton
  split
  · rfl
  · split <;> rfl

theorem renderFields_res_classify (env : Env) (s : StrategyState) (m : String)
    (popts : PayPalCommerceAlternativeMethodsPaymentOptions)
    (h : s.paypalApms = true) :
    (renderFields env s m popts).res = Except.ok () ∨
    (renderFields env s m popts).res =
      Except.error (CheckoutError.invalidArgumentError apmFieldsContainerMessage) := by
  unfold renderFields getPaypalAmpsSdkOrThrow
  rw [h]
  simp only [if_true]
  split
  · right; rfl
  · left; rfl

theorem writeBackPaypalOptions_self (options : PaymentInitializeOptions)
    (popts : PayPalCommerceAlternativeMethodsPaymentOptions)
    (h : (options.paypalcommercealternativemethods.orElse fun _ =>
        options.paypalcommerce) = some popts) :
    writeBackPaypalOptions options popts = options := by
  unfold writeBackPaypalOptions
  rcases options with ⟨mi, gi, pc, alt⟩
  cases alt with
  | some p =>
    simp only [Option.orElse] at h
    simp only [Option.some.injEq] at h
    subst h
    rfl
  | none =>
    cases pc with
    | some p =>
      simp only [Option.orElse] at h
      simp only [Option.some.injEq] at h
      subst h
      rfl
    | none =>
      simp only [Option.orElse] at h
      exact Option.noConfusion h

theorem strFalsy_none : strFalsy none = true := rfl

theorem strFalsy_some (s : String) : strFalsy (some s) = (s == "") := rfl

theorem initializeStrategy_guard_methodId (env : Env) (s : StrategyState)
    (options : PaymentInitializeOptions) (h1 : strFalsy options.methodId = true) :
    initializeStrategy env s options =
      { res := Except.error (CheckoutError.invalidArgumentError methodIdMessage),
        state := s, trace := [], options := options } := by
  simp [initializeStrategy, h1]

theorem initializeStrategy_guard_gatewayId (env : Env) (s : StrategyState)
    (options : PaymentInitializeOptions) (h1 : strFalsy options.methodId = false)
    (h2 : strFalsy options.gatewayId = true) :
    initializeStrategy env s options =
      { res := Except.error (CheckoutError.invalidArgumentError gatewayIdMessage),
        state := s, trace := [], options := options } := by
  simp [initializeStrategy, h1, h2]

theorem initializeStrategy_guard_paypalOptions (env : Env) (s : StrategyState)
    (options : PaymentInitializeOptions) (h1 : strFalsy options.methodId = false)
    (h2 : strFalsy options.gatewayId = false)
    (hpo : (options.paypalcommercealternativemethods.orElse fun _ =>
        options.paypalcommerce) = none) :
    initializeStrategy env s options =
      { res := Except.error (CheckoutError.invalidArgumentError paypalOptionsMessage),
        state := s, trace := [], options := options } := by
  simp [initializeStrategy, h1, h2, hpo]

theorem initializeStrategy_all_present (env : Env) (s : StrategyState)
    (options : PaymentInitializeOptions)
    (popts : PayPalCommerceAlternativeMethodsPaymentOptions)
    (h1 : strFalsy options.methodId = false)
    (h2 : strFalsy options.gatewayId = false)
    (hpo : (options.paypalcommercealternativemethods.orElse fun _ =>
        options.paypalcommerce) = some popts) :
    (initializeStrategy env s options).res = Except.ok () ∨
    (initializeStrategy env s options).res =
      Except.error (CheckoutError.invalidArgumentError apmFieldsContainerMessage) := by
  rcases hID : env.initializationData with _ | ⟨oid, srf⟩
  · by_cases hE : env.buttonIsEligible = true
    · left
      simp [initializeStrategy, h1, h2, hpo, hID, hE, renderButton,
        getPaypalAmpsSdkOrThrow, strFalsy_none]
    · rw [Bool.not_eq_true] at hE
      left
      simp [initializeStrategy, h1, h2, hpo, hID, hE, renderButton,
        getPaypalAmpsSdkOrThrow, strFalsy_none]
  · by_cases hOid : strFalsy oid = true
    · cases srf with
      | false =>
        by_cases hE : env.buttonIsEligible = true
        · left
          simp [initializeStrategy, h1, h2, hpo, hID, hOid, hE, renderButton,
            getPaypalAmpsSdkOrThrow]
        · rw [Bool.not_eq_true] at hE
          left
          simp [initializeStrategy, h1, h2, hpo, hID, hOid, hE, renderButton,
            getPaypalAmpsSdkOrThrow]
      | true =>
        by_cases hAF : strFalsy popts.apmFieldsContainer = true
        · by_cases hE : env.buttonIsEligible = true
          · right
            simp [initializeStrategy, h1, h2, hpo, hID, hOid, hE, hAF,
              renderButton, renderFields, getPaypalAmpsSdkOrThrow]
          · rw [Bool.not_eq_true] at hE
            right
            simp [initializeStrategy, h1, h2, hpo, hID, hOid, hE, hAF,
              renderButton, renderFields, getPaypalAmpsSdkOrThrow]
        · rw [Bool.not_eq_true] at hAF
          by_cases hE : env.buttonIsEligible = true
          · left
            simp [initializeStrategy, h1, h2, hpo, hID, hOid, hE, hAF,
              renderButton, renderFields, getPaypalAmpsSdkOrThrow]
          · rw [Bool.not_eq_true] at hE
            left
            simp [initializeStrategy, h1, h2, hpo, hID, hOid, hE, hAF,
              renderButton, renderFields, getPaypalAmpsSdkOrThrow]
    · rw [Bool.not_eq_true] at hOid
      left
      simp [initializeStrategy, h1, h2, hpo, hID, hOid]

theorem initializeStrategy_res_classify (env : Env) (s : StrategyState)
    (options : PaymentInitializeOptions) :
    (initializeStrategy env s options).res = Except.ok () ∨
    (initializeStrategy env s options).res =
      Except.error (CheckoutError.invalidArgumentError methodIdMessage) ∨
    (initializeStrategy env s options).res =
      Except.error (CheckoutError.invalidArgumentError gatewayIdMessage) ∨
    (initializeStrategy env s options).res =
      Except.error (CheckoutError.invalidArgumentError paypalOptionsMessage) ∨
    (initializeStrategy env s options).res =
      Except.error (CheckoutError.invalidArgumentError apmFieldsContainerMessage) := by
  by_cases h1 : strFalsy options.methodId = true
  · right; left
    rw [initializeStrategy_guard_methodId env s options h1]
  · rw [Bool.not_eq_true] at h1
    by_cases h2 : strFalsy options.gatewayId = true
    · right; right; left
      rw [initializeStrategy_guard_gatewayId env s options h1 h2]
    · rw [Bool.not_eq_true] at h2
      rcases hpo : (options.paypalcommercealternativemethods.orElse fun _ =>
          options.paypalcommerce) with _ | popts
      · right; right; right; left
        rw [initializeStrategy_guard_paypalOptions env s options h1 h2 hpo]
      · rcases initializeStrategy_all_present env s options popts h1 h2 hpo with h | h
        · left; exact h
        · right; right; right; right; exact h

/-! ### Claim theorems -/

/-- C1: when `execute` is called with a payload whose payment entry is present
while an order id is active, then for a method that is not a non-instant
alternative payment method it first submits the order through the payment
integration service and then submits the payment (with the stored order id)
through the PayPal commerce integration service; for a non-instant method it
skips `submitOrder` and submits only the payment. -/
theorem execute_submitOrder_then_submitPayment_c1 (env : Env) (s : StrategyState)
    (payload : OrderRequestBody) (p : Payment) (oid : String)
    (hp : payload.payment = some p) (ho : s.orderId = some oid) (hne : oid ≠ "") :
    execute env s payload =
      (Except.ok (), s,
        (if isNonInstantPaymentMethod env p.methodId then ([] : List Effect)
         else [Effect.submitOrder]) ++
          [Effect.submitPayment p.methodId oid p.gatewayId]) := by
  have hb : (oid == "") = false := beq_eq_false_iff_ne.mpr hne
  simp [execute, hp, ho, strFalsy_some, hb]

/-- Witness for C1 at a concrete instant-method input. -/
theorem execute_submitOrder_then_submitPayment_c1_witness :
    execute envFields stateActiveOrder payloadInstant =
      (Except.ok (), stateActiveOrder,
        (if isNonInstantPaymentMethod envFields "przelewy24" then ([] : List Effect)
         else [Effect.submitOrder]) ++
          [Effect.submitPayment "przelewy24" "ord-1"
            (some "paypalcommercealternativemethods")]) :=
  execute_submitOrder_then_submitPayment_c1 envFields stateActiveOrder payloadInstant
    { methodId := "przelewy24", gatewayId := some "paypalcommercealternativemethods" }
    "ord-1" rfl rfl (by decide)

/-- C2 counterexample: with `methodId`, `gatewayId` and the paypal
alternative-methods options all provided, `initialize` still throws an
`InvalidArgumentError` when the backend requests field rendering and the
options carry no `apmFieldsContainer`. -/
theorem initializeStrategy_c2_counterexample :
    optionsNoFields.methodId.isSome = true ∧
    optionsNoFields.gatewayId.isSome = true ∧
    optionsNoFields.paypalcommercealternativemethods.isSome = true ∧
    (initializeStrategy envFields StrategyState.initial optionsNoFields).res =
      Except.error (CheckoutError.invalidArgumentError apmFieldsContainerMessage) :=
  ⟨rfl, rfl, rfl, rfl⟩

/-- C2 (amended): `initialize` throws a descriptive `InvalidArgumentError`
when `options.methodId` is missing, when `options.gatewayId` is missing, and
when neither `options.paypalcommercealternativemethods` nor the deprecated
`options.paypalcommerce` is provided; each guard fires before any delegation
(the trace is empty and the state untouched); and when all three arguments
are present the only `InvalidArgumentError` `initialize` can still throw is
the `apmFieldsContainer` error raised while rendering the fields. -/
theorem initializeStrategy_guards_c2 (env : Env) (s : StrategyState)
    (options : PaymentInitializeOptions)
    (popts : PayPalCommerceAlternativeMethodsPaymentOptions) :
    (strFalsy options.methodId = true →
      initializeStrategy env s options =
        { res := Except.error (CheckoutError.invalidArgumentError methodIdMessage),
          state := s, trace := [], options := options }) ∧
    (strFalsy options.methodId = false → strFalsy options.gatewayId = true →
      initializeStrategy env s options =
        { res := Except.error (CheckoutError.invalidArgumentError gatewayIdMessage),
          state := s, trace := [], options := options }) ∧
    (strFalsy options.methodId = false → strFalsy options.gatewayId = false →
      (options.paypalcommercealternativemethods.orElse fun _ =>
          options.paypalcommerce) = none →
      initializeStrategy env s options =
        { res := Except.error (CheckoutError.invalidArgumentError paypalOptionsMessage),
          state := s, trace := [], options := options }) ∧
    (strFalsy options.methodId = false → strFalsy options.gatewayId = false →
      (options.paypalcommercealternativemethods.orElse fun _ =>
          options.paypalcommerce) = some popts →
      ∀ m, (initializeStrategy env s options).res =
          Except.error (CheckoutError.invalidArgumentError m) →
        m = apmFieldsContainerMessage) := by
  refine ⟨fun h1 => initializeStrategy_guard_methodId env s options h1,
    fun h1 h2 => initializeStrategy_guard_gatewayId env s options h1 h2,
    fun h1 h2 hpo => initializeStrategy_guard_paypalOptions env s options h1 h2 hpo,
    fun h1 h2 hpo m hm => ?_⟩
  rcases initializeStrategy_all_present env s options popts h1 h2 hpo with h | h
  · rw [hm] at h
    exact Except.noConfusion h
  · rw [hm] at h
    injection h with h
    injection h with h

/-- Witness for C2 at a concrete input missing `methodId`. -/
theorem initializeStrategy_guards_c2_witness :
    initializeStrategy envFields StrategyState.initial
        { methodId := none, gatewayId := some "g", paypalcommerce := none,
          paypalcommercealternativemethods := some poptsFull } =
      { res := Except.error (CheckoutError.invalidArgumentError methodIdMessage),
        state := StrategyState.initial, trace := [],
        options :=
          { methodId := none, gatewayId := some "g", paypalcommerce := none,
            paypalcommercealternativemethods := some poptsFull } } :=
  (initializeStrategy_guards_c2 envFields StrategyState.initial
    { methodId := none, gatewayId := some "g", paypalcommerce := none,
      paypalcommercealternativemethods := some poptsFull } poptsFull).1 rfl

/-- Decides whether an error is a missing-required-option validation
failure. -/
def isMissingOptionError : CheckoutError → Bool
  | CheckoutError.invalidArgumentError _ => true
  | CheckoutError.paymentArgumentInvalidError _ => true
  | _ => false

/-- Decides whether an error is the client-unavailable condition. -/
def isClientUnavailableError : CheckoutError → Bool
  | CheckoutError.paymentMethodClientUnavailableError => true
  | _ => false

/-- C3 counterexample: `finalize` rejects with
`OrderFinalizationNotRequiredError`, which is neither a missing-required-option
validation failure nor the client-unavailable condition. -/
theorem finalize_c3_counterexample :
    (finalize StrategyState.initial).1 =
      Except.error CheckoutError.orderFinalizationNotRequiredError ∧
    isMissingOptionError CheckoutError.orderFinalizationNotRequiredError = false ∧
    isClientUnavailableError CheckoutError.orderFinalizationNotRequiredError = false :=
  ⟨rfl, rfl, rfl⟩

/-- C3 (amended): every error the strategy itself raises from its public
operations is raised directly and propagates unchanged, and is one of:
a missing-required-option validation failure (the three `initialize` guard
errors, the `apmFieldsContainer` error, or the missing-payment
`PaymentArgumentInvalidError`), the missing-active-order
`PaymentMethodInvalidError` from `execute`, or the
`OrderFinalizationNotRequiredError` that `finalize` always rejects with;
`deinitialize` never errors.  (The client-unavailable condition is raised by
the internal SDK accessor, which the public operations only reach with the
SDK present.) -/
theorem strategy_errors_enumerated_c3 (env : Env) (s : StrategyState)
    (options : PaymentInitializeOptions) (payload : OrderRequestBody) :
    (∀ e, (initializeStrategy env s options).res = Except.error e →
      e = CheckoutError.invalidArgumentError methodIdMessage ∨
      e = CheckoutError.invalidArgumentError gatewayIdMessage ∨
      e = CheckoutError.invalidArgumentError paypalOptionsMessage ∨
      e = CheckoutError.invalidArgumentError apmFieldsContainerMessage) ∧
    (∀ e, (execute env s payload).1 = Except.error e →
      e = CheckoutError.paymentArgumentInvalidError ["payment"] ∨
      e = CheckoutError.paymentMethodInvalidError) ∧
    (finalize s).1 = Except.error CheckoutError.orderFinalizationNotRequiredError ∧
    (deinitializeStrategy s).1 = Except.ok () := by
  refine ⟨?_, ?_, rfl, rfl⟩
  · intro e he
    rcases initializeStrategy_res_classify env s options with h | h | h | h | h
    · rw [he] at h
      exact Except.noConfusion h
    · rw [he] at h
      injection h with h
      exact Or.inl h
    · rw [he] at h
      injection h with h
      exact Or.inr (Or.inl h)
    · rw [he] at h
      injection h with h
      exact Or.inr (Or.inr (Or.inl h))
    · rw [he] at h
      injection h with h
      exact Or.inr (Or.inr (Or.inr h))
  · intro e he
    rcases hp : payload.payment with _ | p
    · simp [execute, hp] at he
      exact Or.inl he.symm
    · by_cases ho : strFalsy s.orderId = true
      · simp [execute, hp, ho] at he
        exact Or.inr he.symm
      · rw [Bool.not_eq_true] at ho
        simp [execute, hp, ho] at he

/-- Witness for C3 at a concrete payload with no payment entry. -/
theorem strategy_errors_enumerated_c3_witness :
    CheckoutError.paymentArgumentInvalidError ["payment"] =
        CheckoutError.paymentArgumentInvalidError ["payment"] ∨
      CheckoutError.paymentArgumentInvalidError ["payment"] =
        CheckoutError.paymentMethodInvalidError :=
  (strategy_errors_enumerated_c3 envFields StrategyState.initial optionsFull
    payloadNoPayment).2.1 _ rfl

/-- C4 counterexample: after an initialization that rendered the payment
fields, `deinitialize` emits only the button close; it performs no action
that closes or clears the rendered payment-fields handle (the strategy keeps
no handle to it). -/
theorem deinitializeStrategy_c4_counterexample :
    ((initializeStrategy envFields StrategyState.initial optionsFull).trace.contains
        (Effect.paymentFieldsRender "oxxo" "#fields-container" "Ann Smith"
          "ann@example.com") = true) ∧
    (deinitializeStrategy
        (initializeStrategy envFields StrategyState.initial optionsFull).state).2.2 =
      [Effect.buttonClose] :=
  ⟨rfl, rfl⟩

/-- C4 (amended): after `deinitialize` resolves, the stored order id has been
cleared and, when a PayPal button handle had been created, it has been
closed; the strategy holds no handle to any rendered payment fields and
`deinitialize` performs no action on them. -/
theorem deinitializeStrategy_c4_amended (s : StrategyState) :
    (deinitializeStrategy s).1 = Except.ok () ∧
    (deinitializeStrategy s).2.1 = { s with orderId := none } ∧
    (deinitializeStrategy s).2.2 =
      (if s.paypalButton then [Effect.buttonClose] else []) :=
  ⟨rfl, rfl, rfl⟩

/-- C5 counterexample: a successful `execute` does not release the stored
order id; it is still set after the order was submitted. -/
theorem execute_c5_counterexample :
    (execute envFields stateActiveOrder payloadInstant).1 = Except.ok () ∧
    (execute envFields stateActiveOrder payloadInstant).2.1.orderId = some "ord-1" :=
  ⟨rfl, rfl⟩

/-- C5 (amended): the `orderId` field holds at most one optional string; it is
set from the payment method's `initializationData` during `initialize` or by
the approval callback, and it is released only when the strategy is reset
(`deinitialize`); `execute` and `finalize` leave it unchanged. -/
theorem orderId_lifecycle_c5 (env : Env) (s : StrategyState)
    (options : PaymentInitializeOptions) (payload : OrderRequestBody)
    (oid : Option String) :
    ((initializeStrategy env s options).state.orderId = s.orderId ∨
      (initializeStrategy env s options).state.orderId =
        (env.initializationData.getD
          { orderId := none, shouldRenderFields := false }).orderId) ∧
    (handleApprove s oid).1.orderId = oid ∧
    (execute env s payload).2.1.orderId = s.orderId ∧
    (finalize s).2.1.orderId = s.orderId ∧
    (deinitializeStrategy s).2.1.orderId = none := by
  refine ⟨?_, rfl, ?_, rfl, rfl⟩
  · by_cases h1 : strFalsy options.methodId = true
    · left
      rw [initializeStrategy_guard_methodId env s options h1]
    · rw [Bool.not_eq_true] at h1
      by_cases h2 : strFalsy options.gatewayId = true
      · left
        rw [initializeStrategy_guard_gatewayId env s options h1 h2]
      · rw [Bool.not_eq_true] at h2
        rcases hpo : (options.paypalcommercealternativemethods.orElse fun _ =>
            options.paypalcommerce) with _ | popts
        · left
          rw [initializeStrategy_guard_paypalOptions env s options h1 h2 hpo]
        · by_cases hOid : strFalsy ((env.initializationData.getD
              { orderId := none, shouldRenderFields := false }).orderId) = true
          · left
            simp only [initializeStrategy, h1, h2, hpo, hOid, Bool.not_true,
              Bool.false_eq_true, if_false]
            split
            · exact renderButton_orderId _ _ _ _ _
            · split
              · exact renderButton_orderId _ _ _ _ _
              · exact renderButton_orderId _ _ _ _ _
          · rw [Bool.not_eq_true] at hOid
            right
            simp [initializeStrategy, h1, h2, hpo, hOid]
  · rcases hp : payload.payment with _ | p
    · simp [execute, hp]
    · by_cases ho : strFalsy s.orderId = true
      · simp [execute, hp, ho]
      · rw [Bool.not_eq_true] at ho
        simp [execute, hp, ho]

/-- C6: a `PaymentMethodClientUnavailableError` arises exactly when the vendor
SDK failed to attach itself to the global scope: the Adyen loader rejects with
it precisely when `window.AdyenCheckout` is unset after the script load
resolves, returning the client taken from the window otherwise; and the
strategy's internal accessor throws it precisely when the PayPal APM SDK was
never loaded onto the instance. -/
theorem client_unavailable_iff_c6 (w : AdyenHostWindow) (s : StrategyState) :
    (adyenV2ScriptLoaderLoad w =
        Except.error CheckoutError.paymentMethodClientUnavailableError ↔
      w.AdyenCheckout = none) ∧
    (∀ client, w.AdyenCheckout = some client →
      adyenV2ScriptLoaderLoad w = Except.ok client) ∧
    (getPaypalAmpsSdkOrThrow s =
        Except.error CheckoutError.paymentMethodClientUnavailableError ↔
      s.paypalApms = false) := by
  refine ⟨?_, ?_, ?_⟩
  · cases hw : w.AdyenCheckout <;> simp [adyenV2ScriptLoaderLoad, hw]
  · intro client hc
    simp [adyenV2ScriptLoaderLoad, hc]
  · cases hb : s.paypalApms <;> simp [getPaypalAmpsSdkOrThrow, hb]

/-- Witness for C6: the loader returns the client attached to the window. -/
theorem client_unavailable_iff_c6_witness :
    adyenV2ScriptLoaderLoad { AdyenCheckout := some { clientId := 7 } } =
      Except.ok { clientId := 7 } :=
  (client_unavailable_iff_c6 { AdyenCheckout := some { clientId := 7 } }
    StrategyState.initial).2.1 { clientId := 7 } rfl

/-- C7: the option structures received at initialization are not mutated
thereafter: `initialize` hands back the options object it was given with
every field unchanged, and every vendor callback hands back the paypal
alternative-methods options unchanged (`execute`, `finalize` and
`deinitialize` do not touch the options at all). -/
theorem options_not_mutated_c7 (env : Env) (s : StrategyState)
    (options : PaymentInitializeOptions) (m g : String)
    (popts : PayPalCommerceAlternativeMethodsPaymentOptions)
    (cb : ButtonCallback) :
    (initializeStrategy env s options).options = options ∧
    (runButtonCallback env s m g popts cb).2.2 = popts := by
  constructor
  · by_cases h1 : strFalsy options.methodId = true
    · rw [initializeStrategy_guard_methodId env s options h1]
    · rw [Bool.not_eq_true] at h1
      by_cases h2 : strFalsy options.gatewayId = true
      · rw [initializeStrategy_guard_gatewayId env s options h1 h2]
      · rw [Bool.not_eq_true] at h2
        rcases hpo : (options.paypalcommercealternativemethods.orElse fun _ =>
            options.paypalcommerce) with _ | popts2
        · rw [initializeStrategy_guard_paypalOptions env s options h1 h2 hpo]
        · by_cases hOid : strFalsy ((env.initializationData.getD
              { orderId := none, shouldRenderFields := false }).orderId) = true
          · simp only [initializeStrategy, h1, h2, hpo, hOid, Bool.not_true,
              Bool.false_eq_true, if_false]
            split
            · simp only [renderButton_popts]
              exact writeBackPaypalOptions_self options popts2 hpo
            · split
              · simp only [renderButton_popts, renderFields_popts]
                exact writeBackPaypalOptions_self options popts2 hpo
              · simp only [renderButton_popts]
                exact writeBackPaypalOptions_self options popts2 hpo
          · rw [Bool.not_eq_true] at hOid
            simp [initializeStrategy, h1, h2, hpo, hOid]
  · cases cb <;>
      simp [runButtonCallback, onCreateOrder, handleApprove, handleFailure]

/-- C8: among the vendor callbacks wired into the PayPal button options
(`onInit`, `createOrder`, `onApprove`, `onCancel`, `onError`, `onClick`),
only the approval path writes `orderId` — it stores the vendor-supplied order
id — and every other callback leaves `orderId` unchanged; in the sequential
event-loop model each callback runs atomically, so writes cannot
interleave. -/
theorem orderId_single_writer_c8 (env : Env) (s : StrategyState) (m g : String)
    (popts : PayPalCommerceAlternativeMethodsPaymentOptions)
    (cb : ButtonCallback) (oid : Option String) :
    (runButtonCallback env s m g popts (ButtonCallback.onApprove oid)).1.orderId = oid ∧
    ((∀ o, cb ≠ ButtonCallback.onApprove o) →
      (runButtonCallback env s m g popts cb).1.orderId = s.orderId) := by
  constructor
  · rfl
  · intro h
    cases cb with
    | onInit => rfl
    | createOrder => rfl
    | onApprove o => exact absurd rfl (h o)
    | onCancel => rfl
    | onError => rfl
    | onClick => rfl

/-- Witness for C8: the cancellation callback leaves `orderId` unchanged. -/
theorem orderId_single_writer_c8_witness :
    (runButtonCallback envFields StrategyState.initial "oxxo"
        "paypalcommercealternativemethods" poptsFull
        ButtonCallback.onCancel).1.orderId =
      StrategyState.initial.orderId :=
  (orderId_single_writer_c8 envFields StrategyState.initial "oxxo"
      "paypalcommercealternativemethods" poptsFull ButtonCallback.onCancel none).2
    (fun o h => ButtonCallback.noConfusion h)

/-- C9: when the payment method's `initializationData` carries a non-empty
order id, `initialize` stores it and returns immediately — the APM SDK is not
loaded, no button and no fields are rendered, and the other instance fields
(`loadingIndicatorContainer`, `paypalApms`, `paypalButton`) are left exactly
as they were (unset on a fresh instance); a subsequent `execute` with a
payment entry then proceeds using this stored order id. -/
theorem initializeStrategy_backend_orderId_c9 (env : Env) (s : StrategyState)
    (options : PaymentInitializeOptions) (d : PayPalCommerceInitializationData)
    (oid : String)
    (h1 : strFalsy options.methodId = false)
    (h2 : strFalsy options.gatewayId = false)
    (hpp : (options.paypalcommercealternativemethods.orElse fun _ =>
        options.paypalcommerce).isSome = true)
    (hd : env.initializationData = some d)
    (ho : d.orderId = some oid) (hne : oid ≠ "") :
    initializeStrategy env s options =
      { res := Except.ok (), state := { s with orderId := some oid },
        trace := [Effect.getState], options := options } ∧
    ∀ payload p, payload.payment = some p →
      execute env { s with orderId := some oid } payload =
        (Except.ok (), { s with orderId := some oid },
          (if isNonInstantPaymentMethod env p.methodId then ([] : List Effect)
           else [Effect.submitOrder]) ++
            [Effect.submitPayment p.methodId oid p.gatewayId]) := by
  have hb : (oid == "") = false := beq_eq_false_iff_ne.mpr hne
  constructor
  · rcases hpo : (options.paypalcommercealternativemethods.orElse fun _ =>
        options.paypalcommerce) with _ | popts
    · rw [hpo] at hpp
      exact absurd hpp (by simp)
    · simp [initializeStrategy, h1, h2, hpo, hd, ho, strFalsy_some, hb]
  · intro payload p hp
    simp [execute, hp, strFalsy_some, hb]

/-- Witness for C9 at a concrete backend-provided order id. -/
theorem initializeStrategy_backend_orderId_c9_witness :
    initializeStrategy envBackendOrder StrategyState.initial optionsFull =
      { res := Except.ok (),
        state := { StrategyState.initial with orderId := some "backend-1" },
        trace := [Effect.getState], options := optionsFull } ∧
    execute envBackendOrder
        { StrategyState.initial with orderId := some "backend-1" } payloadInstant =
      (Except.ok (), { StrategyState.initial with orderId := some "backend-1" },
        (if isNonInstantPaymentMethod envBackendOrder "przelewy24" then ([] : List Effect)
         else [Effect.submitOrder]) ++
          [Effect.submitPayment "przelewy24" "backend-1"
            (some "paypalcommercealternativemethods")]) :=
  ⟨(initializeStrategy_backend_orderId_c9 envBackendOrder StrategyState.initial
      optionsFull { orderId := some "backend-1", shouldRenderFields := false }
      "backend-1" rfl rfl rfl rfl rfl (by decide)).1,
   (initializeStrategy_backend_orderId_c9 envBackendOrder StrategyState.initial
      optionsFull { orderId := some "backend-1", shouldRenderFields := false }
      "backend-1" rfl rfl rfl rfl rfl (by decide)).2 payloadInstant
     { methodId := "przelewy24", gatewayId := some "paypalcommercealternativemethods" }
     rfl⟩

/-- C10: `finalize` always rejects with `OrderFinalizationNotRequiredError`,
in every state of the strategy, returning the state untouched and performing
no outbound call. -/
theorem finalize_always_rejects_c10 (s : StrategyState) :
    finalize s =
      (Except.error CheckoutError.orderFinalizationNotRequiredError, s,
        ([] : List Effect)) := rfl
